import Mathlib

/-!
Shallow embedding of the session relay server in `src/server.py` of the
`web-img` repository (Flask-SocketIO photo relay from mobile to desktop).

The relay's observable behaviour is the module-level dict
`active_sessions : {session_id: desktop_sid}`, the Socket.IO room
membership created by `join_room`, and the events emitted by the five
socket handlers (`connect`, `disconnect`, `register_desktop`,
`register_mobile`, `upload_photo`).  Each Python handler becomes a pure
Lean function from the server state and the incoming event payload to
the new state together with the list of emitted events.
-/

namespace WebImg

/-- Socket.IO session id of a connection (`request.sid` in the source). -/
abbrev ConnId := String

/-- The caller-generated session identifier (`session_id` in payloads). -/
abbrev SessionId := String

/-- Payload of an `upload_photo` event.  Every field is optional because the
Python code reads them with `data.get(...)`; `mime_type` and `file_size`
carry defaults at the read site (`server.py` lines 107-110). -/
structure UploadData where
  session_id : Option String
  photo : Option String
  mime_type : Option String
  file_size : Option Int
deriving DecidableEq, Repr

/-- Python truthiness of an optional string: `None` and `""` are falsy. -/
def truthy : Option String → Bool
  | none => false
  | some s => if s = "" then false else true

/-- Server state: `active_sessions` is the module-level dict of
`server.py` line 28, modelled as an association list (most recent
binding first); `rooms` is the Socket.IO room-membership table, one
`(room_key, connection)` pair per membership. -/
structure ServerState where
  active_sessions : List (SessionId × ConnId)
  rooms : List (String × ConnId)
deriving DecidableEq, Repr

/-- State at server start: no sessions, no room memberships. -/
def initialState : ServerState := ⟨[], []⟩

/-- Dict lookup on the association list (first binding wins). -/
def lookupList (l : List (SessionId × ConnId)) (s : SessionId) : Option ConnId :=
  (l.find? (fun p => p.1 = s)).map Prod.snd

/-- `active_sessions[session_id]` / `session_id in active_sessions`. -/
def lookup (st : ServerState) (s : SessionId) : Option ConnId :=
  lookupList st.active_sessions s

/-- `active_sessions[session_id] = request.sid` (insert-or-overwrite). -/
def dictInsert (l : List (SessionId × ConnId)) (k : SessionId) (v : ConnId) :
    List (SessionId × ConnId) :=
  (k, v) :: l.filter (fun p => p.1 ≠ k)

/-- `del active_sessions[session_id] for every entry whose value is c`
(`server.py` lines 71-73). -/
def removeByValue (l : List (SessionId × ConnId)) (c : ConnId) :
    List (SessionId × ConnId) :=
  l.filter (fun p => p.2 ≠ c)

/-- `join_room(key)`: adds a membership; joining a room twice is a no-op. -/
def joinRoom (rooms : List (String × ConnId)) (r : String) (c : ConnId) :
    List (String × ConnId) :=
  if (r, c) ∈ rooms then rooms else (r, c) :: rooms

/-- Socket.IO removes a disconnected client from all of its rooms. -/
def leaveAllRooms (rooms : List (String × ConnId)) (c : ConnId) :
    List (String × ConnId) :=
  rooms.filter (fun p => p.2 ≠ c)

/-- Room key `f"desktop_{session_id}"` (`server.py` lines 81, 146). -/
def desktopRoom (s : SessionId) : String := "desktop_" ++ s

/-- Room key `f"mobile_{session_id}"` (`server.py` line 93). -/
def mobileRoom (s : SessionId) : String := "mobile_" ++ s

/-- Members of a room in a given state. -/
def roomMembers (st : ServerState) (r : String) : List ConnId :=
  (st.rooms.filter (fun p => p.1 = r)).map Prod.snd

/-- An event emitted by the server: either `emit(event, {'message': m})`
to the connection that sent the event being handled, or
`socketio.emit('photo_received', {...}, room=r)` broadcast to a room. -/
inductive Emit where
  | toConn (target : ConnId) (event : String) (message : String)
  | toRoom (room : String) (event : String) (photo : String)
      (mime_type : String) (file_size : Int)
deriving DecidableEq, Repr

def msgDesktopRegistered : String := "Desktop registered successfully"
def msgNoSessionId : String := "No session ID provided"
def msgConnectedToDesktop : String := "Connected to desktop"
def msgDesktopNotFound : String :=
  "Desktop not found. Please check if the app is running."
def msgDesktopNotConnected : String :=
  "Desktop not connected. Please ensure the desktop app is running."
def msgNoPhotoData : String := "No photo data received"
def msgInvalidFileType (m : String) : String := "Invalid file type: " ++ m
def msgFileTooLarge : String := "File too large (max 10MB)"
def msgPhotoSent : String := "Photo sent successfully"
def msgFailedToSend : String := "Failed to send photo to desktop"

/-- Result of the upload validation checks. -/
inductive ValidationResult where
  | ok
  | rejected (reason : String)
deriving DecidableEq, Repr

/-- `allowed_types = {'image/jpeg', 'image/png', 'image/jpg', 'image/webp'}`
(`server.py` line 127). -/
def allowed_types : List String :=
  ["image/jpeg", "image/png", "image/jpg", "image/webp"]

/-- `max_size = 10 * 1024 * 1024` (`server.py` line 134). -/
def max_size : Int := 10 * 1024 * 1024

/-- The validation block of `handle_upload` (`server.py` lines 126-138):
reject a MIME type outside `allowed_types`, then reject a declared size
over `max_size`; otherwise accept.  Pure function of its two arguments. -/
def validate (mime_type : String) (file_size : Int) : ValidationResult :=
  if mime_type ∉ allowed_types then .rejected (msgInvalidFileType mime_type)
  else if file_size > max_size then .rejected msgFileTooLarge
  else .ok

/-- `handle_register_desktop` (`server.py` lines 76-86): with a truthy
session id, join `desktop_{session_id}`, overwrite
`active_sessions[session_id]` and acknowledge; otherwise emit
`registration_error`. -/
def handle_register_desktop (st : ServerState) (sender : ConnId)
    (session_id : Option String) : ServerState × List Emit :=
  match session_id with
  | some s =>
    if s = "" then
      (st, [.toConn sender "registration_error" msgNoSessionId])
    else
      ({ active_sessions := dictInsert st.active_sessions s sender,
         rooms := joinRoom st.rooms (desktopRoom s) sender },
       [.toConn sender "registration_success" msgDesktopRegistered])
  | none => (st, [.toConn sender "registration_error" msgNoSessionId])

/-- `handle_register_mobile` (`server.py` lines 88-102): with a truthy
session id, join `mobile_{session_id}` and report whether a desktop is
registered for it; the registry is never modified. -/
def handle_register_mobile (st : ServerState) (sender : ConnId)
    (session_id : Option String) : ServerState × List Emit :=
  match session_id with
  | some s =>
    if s = "" then
      (st, [.toConn sender "registration_error" msgNoSessionId])
    else
      ({ st with rooms := joinRoom st.rooms (mobileRoom s) sender },
       if (lookup st s).isSome then
         [.toConn sender "registration_success" msgConnectedToDesktop]
       else
         [.toConn sender "registration_error" msgDesktopNotFound])
  | none => (st, [.toConn sender "registration_error" msgNoSessionId])

/-- `handle_disconnect` (`server.py` lines 65-74): every
`active_sessions` entry whose value is the disconnecting sid is deleted.
The room-membership cleanup is the Socket.IO library's automatic
leave-on-disconnect, not code in `server.py` itself. -/
def handle_disconnect (st : ServerState) (sender : ConnId) :
    ServerState × List Emit :=
  ({ active_sessions := removeByValue st.active_sessions sender,
     rooms := leaveAllRooms st.rooms sender }, [])

/-- `handle_upload` (`server.py` lines 104-155).  `forwardOk = false`
models the `except` branch: the transport-level `socketio.emit` call
raising; in that case no forward is delivered and `upload_error` is
emitted instead (lines 153-155). -/
def handle_upload (st : ServerState) (sender : ConnId) (data : UploadData)
    (forwardOk : Bool) : ServerState × List Emit :=
  -- `mime_type = data.get('mime_type', 'image/jpeg')`, `file_size = data.get('file_size', 0)`
  match data.session_id with
  | none => (st, [.toConn sender "upload_error" msgDesktopNotConnected])
  | some s =>
    if s = "" ∨ lookup st s = none then
      (st, [.toConn sender "upload_error" msgDesktopNotConnected])
    else
      match data.photo with
      | none => (st, [.toConn sender "upload_error" msgNoPhotoData])
      | some p =>
        if p = "" then
          (st, [.toConn sender "upload_error" msgNoPhotoData])
        else
          match validate (data.mime_type.getD "image/jpeg") (data.file_size.getD 0) with
          | .rejected reason => (st, [.toConn sender "upload_error" reason])
          | .ok =>
            if forwardOk then
              (st, [.toRoom (desktopRoom s) "photo_received" p
                      (data.mime_type.getD "image/jpeg") (data.file_size.getD 0),
                    .toConn sender "upload_success" msgPhotoSent])
            else
              (st, [.toConn sender "upload_error" msgFailedToSend])

/-- An inbound event, tagged with the connection that sent it.  The
`forwardOk` flag of `upload_photo` records whether the transport-level
forward succeeds (the `try`/`except` of `server.py` lines 141-155). -/
inductive Event where
  | connect (c : ConnId)
  | disconnect (c : ConnId)
  | register_desktop (c : ConnId) (session_id : Option String)
  | register_mobile (c : ConnId) (session_id : Option String)
  | upload_photo (c : ConnId) (data : UploadData) (forwardOk : Bool)
deriving DecidableEq, Repr

/-- Dispatch of an inbound event to its handler. -/
def step (st : ServerState) : Event → ServerState × List Emit
  | .connect _ => (st, [])
  | .disconnect c => handle_disconnect st c
  | .register_desktop c sid => handle_register_desktop st c sid
  | .register_mobile c sid => handle_register_mobile st c sid
  | .upload_photo c d fOk => handle_upload st c d fOk

/-- State after processing a trace of events from server start. -/
def run (tr : List Event) : ServerState :=
  tr.foldl (fun st e => (step st e).1) initialState

/-- The registry has at most one entry per session identifier. -/
def nodupKeys (st : ServerState) : Prop :=
  (st.active_sessions.map Prod.fst).Nodup

/-- One step of the history predicate `desktopLive`: an accepted
`register_desktop` by `c` for `s` sets it, a disconnect of `c` clears
it, every other event leaves it alone. -/
def desktopLiveStep (c : ConnId) (s : SessionId) (b : Bool) : Event → Bool
  | .register_desktop c' (some s') =>
      if c' = c ∧ s' = s ∧ ¬ s' = "" then true else b
  | .disconnect c' => if c' = c then false else b
  | _ => b

/-- True when, after the trace, `c` has registered as desktop for `s`
(with a non-empty `s`) and has not disconnected since. -/
def desktopLive (tr : List Event) (c : ConnId) (s : SessionId) : Bool :=
  tr.foldl (fun b e => desktopLiveStep c s b e) false

/-- Events that may change the session registry. -/
def touchesRegistry : Event → Bool
  | .register_desktop _ _ => true
  | .disconnect _ => true
  | _ => false

/-- Events emitted to `sender` that acknowledge an upload. -/
def isUploadResponseTo (sender : ConnId) : Emit → Bool
  | .toConn c e _ =>
      if c = sender ∧ (e = "upload_success" ∨ e = "upload_error") then true else false
  | .toRoom _ _ _ _ _ => false

/-! ### Basic lemmas about the handlers and the state operations -/

theorem handle_upload_fst (st : ServerState) (sender : ConnId) (data : UploadData)
    (fOk : Bool) : (handle_upload st sender data fOk).1 = st := by
  unfold handle_upload
  repeat' first | rfl | split

theorem handle_register_mobile_sessions (st : ServerState) (sender : ConnId)
    (sid : Option String) :
    (handle_register_mobile st sender sid).1.active_sessions = st.active_sessions := by
  unfold handle_register_mobile
  split
  · split
    · rfl
    · rfl
  · rfl

theorem mem_joinRoom {rooms : List (String × ConnId)} {r : String} {c : ConnId}
    (x : String × ConnId) :
    x ∈ joinRoom rooms r c ↔ x ∈ rooms ∨ x = (r, c) := by
  unfold joinRoom
  split
  · rename_i h
    constructor
    · exact fun hx => Or.inl hx
    · rintro (hx | rfl)
      · exact hx
      · exact h
  · simp [List.mem_cons, or_comm]

theorem joinRoom_idem (rooms : List (String × ConnId)) (r : String) (c : ConnId) :
    joinRoom (joinRoom rooms r c) r c = joinRoom rooms r c := by
  unfold joinRoom
  by_cases h : (r, c) ∈ rooms
  · simp only [if_pos h]
  · simp only [if_neg h, if_pos (List.mem_cons_self (r, c) rooms)]

theorem lookupList_dictInsert_self (l : List (SessionId × ConnId)) (k : SessionId)
    (v : ConnId) : lookupList (dictInsert l k v) k = some v := by
  unfold lookupList dictInsert
  rw [List.find?_cons_of_pos]
  · rfl
  · simp

theorem find?_filter_ne (l : List (SessionId × ConnId)) (k k' : SessionId)
    (h : k' ≠ k) :
    (l.filter (fun p => p.1 ≠ k)).find? (fun p => p.1 = k')
      = l.find? (fun p => p.1 = k') := by
  induction l with
  | nil => rfl
  | cons a t ih =>
    by_cases hak : a.1 = k
    · rw [List.filter_cons_of_neg (by simp [hak]),
        List.find?_cons_of_neg _ (by simp [hak, Ne.symm h]), ih]
    · by_cases hak' : a.1 = k'
      · rw [List.filter_cons_of_pos (by simp [hak]),
          List.find?_cons_of_pos _ (by simp [hak']),
          List.find?_cons_of_pos _ (by simp [hak'])]
      · rw [List.filter_cons_of_pos (by simp [hak]),
          List.find?_cons_of_neg _ (by simp [hak']),
          List.find?_cons_of_neg _ (by simp [hak']), ih]

theorem lookupList_dictInsert_ne (l : List (SessionId × ConnId)) (k k' : SessionId)
    (v : ConnId) (h : k' ≠ k) :
    lookupList (dictInsert l k v) k' = lookupList l k' := by
  unfold lookupList dictInsert
  rw [List.find?_cons_of_neg _ (by simpa using Ne.symm h), find?_filter_ne l k k' h]

theorem filter_self_idem {α : Type} (p : α → Bool) (l : List α) :
    (l.filter p).filter p = l.filter p := by
  induction l with
  | nil => rfl
  | cons a t ih =>
    by_cases h : p a = true
    · rw [List.filter_cons_of_pos h, List.filter_cons_of_pos h, ih]
    · rw [List.filter_cons_of_neg (by simp [h]), ih]

theorem dictInsert_idem (l : List (SessionId × ConnId)) (k : SessionId) (v : ConnId) :
    dictInsert (dictInsert l k v) k v = dictInsert l k v := by
  unfold dictInsert
  rw [List.filter_cons_of_neg (by simp), filter_self_idem]

theorem desktopRoom_inj {a b : SessionId} (h : desktopRoom a = desktopRoom b) :
    a = b := by
  unfold desktopRoom at h
  have hd : ("desktop_" ++ a).data = ("desktop_" ++ b).data := congrArg String.data h
  rw [String.data_append, String.data_append] at hd
  exact String.ext (List.append_cancel_left hd)

theorem desktopRoom_ne_mobileRoom (a b : SessionId) : desktopRoom a ≠ mobileRoom b := by
  intro h
  have hd : ("desktop_" ++ a).data = ("mobile_" ++ b).data := congrArg String.data h
  rw [String.data_append, String.data_append] at hd
  have h1 : ('d' : Char) :: ("esktop_".data ++ a.data)
      = 'm' :: ("obile_".data ++ b.data) := hd
  have h2 : ('d' : Char) = 'm' := ((List.cons.injEq _ _ _ _).mp h1).1
  exact absurd h2 (by decide)

theorem isUploadResponseTo_error (sender : ConnId) (m : String) :
    isUploadResponseTo sender (.toConn sender "upload_error" m) = true := by
  show (if sender = sender ∧ ("upload_error" = "upload_success"
      ∨ "upload_error" = "upload_error") then true else false) = true
  rw [if_pos ⟨rfl, Or.inr rfl⟩]

theorem isUploadResponseTo_success (sender : ConnId) (m : String) :
    isUploadResponseTo sender (.toConn sender "upload_success" m) = true := by
  show (if sender = sender ∧ ("upload_success" = "upload_success"
      ∨ "upload_success" = "upload_error") then true else false) = true
  rw [if_pos ⟨rfl, Or.inl rfl⟩]

theorem isUploadResponseTo_toRoom (sender : ConnId) (r e p mt : String) (fs : Int) :
    isUploadResponseTo sender (.toRoom r e p mt fs) = false := rfl

theorem lookupList_removeByValue_eq_none (l : List (SessionId × ConnId)) (c : ConnId)
    (t : SessionId) (hnd : (l.map Prod.fst).Nodup) (h : lookupList l t = some c) :
    lookupList (removeByValue l c) t = none := by
  obtain ⟨q, hq, hqc⟩ : ∃ q, l.find? (fun p => p.1 = t) = some q ∧ q.2 = c := by
    unfold lookupList at h
    cases hfq : l.find? (fun p => p.1 = t) with
    | none => rw [hfq] at h; exact Option.noConfusion h
    | some q =>
        rw [hfq] at h
        exact ⟨q, rfl, Option.some.inj h⟩
  have hql : q ∈ l := List.mem_of_find?_eq_some hq
  have hqt : q.1 = t := by simpa using List.find?_some hq
  unfold lookupList removeByValue
  rw [Option.map_eq_none', List.find?_eq_none]
  intro x hx
  rw [List.mem_filter] at hx
  obtain ⟨hxl, hxc⟩ := hx
  simp only [decide_eq_true_eq]
  intro hxt
  have hxq : x = q :=
    List.inj_on_of_nodup_map hnd hxl hql (by rw [hxt, hqt])
  rw [hxq, hqc] at hxc
  simp at hxc

theorem nodup_dictInsert (l : List (SessionId × ConnId)) (k : SessionId) (v : ConnId)
    (h : (l.map Prod.fst).Nodup) : ((dictInsert l k v).map Prod.fst).Nodup := by
  unfold dictInsert
  rw [List.map_cons, List.nodup_cons]
  constructor
  · intro hk
    rw [List.mem_map] at hk
    obtain ⟨p, hp, hpk⟩ := hk
    rw [List.mem_filter] at hp
    exact absurd hpk (by simpa using hp.2)
  · exact h.sublist (List.Sublist.map _ (List.filter_sublist _))

theorem handle_register_desktop_some_fst (st : ServerState) (d : ConnId)
    (t : String) (ht : ¬ t = "") :
    (handle_register_desktop st d (some t)).1
      = { active_sessions := dictInsert st.active_sessions t d,
          rooms := joinRoom st.rooms (desktopRoom t) d } := by
  simp only [handle_register_desktop]
  rw [if_neg ht]

theorem handle_register_desktop_empty_fst (st : ServerState) (d : ConnId)
    (t : String) (ht : t = "") :
    (handle_register_desktop st d (some t)).1 = st := by
  simp only [handle_register_desktop]
  rw [if_pos ht]

theorem handle_register_mobile_some_fst (st : ServerState) (d : ConnId)
    (t : String) (ht : ¬ t = "") :
    (handle_register_mobile st d (some t)).1
      = { st with rooms := joinRoom st.rooms (mobileRoom t) d } := by
  simp only [handle_register_mobile]
  rw [if_neg ht]

theorem step_nodupKeys (st : ServerState) (e : Event) (h : nodupKeys st) :
    nodupKeys (step st e).1 := by
  cases e with
  | connect c => exact h
  | disconnect c =>
      show ((removeByValue st.active_sessions c).map Prod.fst).Nodup
      exact h.sublist (List.Sublist.map _ (List.filter_sublist _))
  | register_desktop c sid =>
      cases sid with
      | none => exact h
      | some s =>
          show nodupKeys (handle_register_desktop st c (some s)).1
          by_cases hse : s = ""
          · rw [handle_register_desktop_empty_fst st c s hse]
            exact h
          · rw [handle_register_desktop_some_fst st c s hse]
            exact nodup_dictInsert st.active_sessions s c h
  | register_mobile c sid =>
      show ((handle_register_mobile st c sid).1.active_sessions.map Prod.fst).Nodup
      rw [handle_register_mobile_sessions]
      exact h
  | upload_photo c d fOk =>
      show ((handle_upload st c d fOk).1.active_sessions.map Prod.fst).Nodup
      rw [handle_upload_fst]
      exact h

theorem run_nodupKeys (tr : List Event) : nodupKeys (run tr) := by
  unfold run
  suffices hgen : ∀ st, nodupKeys st
      → nodupKeys (tr.foldl (fun st e => (step st e).1) st) from
    hgen initialState (by simp [nodupKeys, initialState])
  induction tr with
  | nil => exact fun st h => h
  | cons e t ih => exact fun st h => ih _ (step_nodupKeys st e h)

theorem step_room_inv (e : Event) (st : ServerState) (b : Bool) (c : ConnId)
    (s : SessionId) (h : (desktopRoom s, c) ∈ st.rooms ↔ b = true) :
    ((desktopRoom s, c) ∈ (step st e).1.rooms ↔ desktopLiveStep c s b e = true) := by
  cases e with
  | connect d => exact h
  | disconnect d =>
      show (desktopRoom s, c) ∈ st.rooms.filter (fun p => p.2 ≠ d)
        ↔ (if d = c then false else b) = true
      rw [List.mem_filter]
      by_cases hc : d = c
      · subst hc
        rw [if_pos rfl]
        simp
      · rw [if_neg hc]
        constructor
        · intro hx
          exact h.mp hx.1
        · intro hb
          exact ⟨h.mpr hb, by simpa using fun hcd => hc hcd.symm⟩
  | register_desktop d sid =>
      cases sid with
      | none => exact h
      | some t =>
          show (desktopRoom s, c) ∈ (handle_register_desktop st d (some t)).1.rooms
            ↔ (if d = c ∧ t = s ∧ ¬ t = "" then true else b) = true
          by_cases hte : t = ""
          · rw [handle_register_desktop_empty_fst st d t hte,
              if_neg (by rintro ⟨-, -, h3⟩; exact h3 hte)]
            exact h
          · rw [handle_register_desktop_some_fst st d t hte]
            show (desktopRoom s, c) ∈ joinRoom st.rooms (desktopRoom t) d
              ↔ (if d = c ∧ t = s ∧ ¬ t = "" then true else b) = true
            rw [mem_joinRoom]
            by_cases heq : d = c ∧ t = s
            · rw [if_pos ⟨heq.1, heq.2, hte⟩]
              constructor
              · intro _
                rfl
              · intro _
                exact Or.inr (by rw [heq.1, heq.2])
            · rw [if_neg (by rintro ⟨h1, h2, -⟩; exact heq ⟨h1, h2⟩)]
              constructor
              · rintro (hx | hx)
                · exact h.mp hx
                · have h1 : desktopRoom s = desktopRoom t := congrArg Prod.fst hx
                  have h2 : c = d := congrArg Prod.snd hx
                  exact absurd ⟨h2.symm, (desktopRoom_inj h1).symm⟩ heq
              · intro hb
                exact Or.inl (h.mpr hb)
  | register_mobile d sid =>
      cases sid with
      | none => exact h
      | some t =>
          show (desktopRoom s, c) ∈ (handle_register_mobile st d (some t)).1.rooms
            ↔ b = true
          by_cases hte : t = ""
          · have hfst : (handle_register_mobile st d (some t)).1 = st := by
              simp only [handle_register_mobile]
              rw [if_pos hte]
            rw [hfst]
            exact h
          · rw [handle_register_mobile_some_fst st d t hte]
            show (desktopRoom s, c) ∈ joinRoom st.rooms (mobileRoom t) d ↔ b = true
            rw [mem_joinRoom]
            constructor
            · rintro (hx | hx)
              · exact h.mp hx
              · exact absurd (congrArg Prod.fst hx) (desktopRoom_ne_mobileRoom s t)
            · intro hb
              exact Or.inl (h.mpr hb)
  | upload_photo d dd fOk =>
      show (desktopRoom s, c) ∈ (handle_upload st d dd fOk).1.rooms ↔ b = true
      rw [handle_upload_fst]
      exact h

theorem run_room_inv_aux (tr : List Event) (st : ServerState) (b : Bool)
    (c : ConnId) (s : SessionId) (h : (desktopRoom s, c) ∈ st.rooms ↔ b = true) :
    ((desktopRoom s, c) ∈ (tr.foldl (fun st e => (step st e).1) st).rooms
      ↔ tr.foldl (fun b e => desktopLiveStep c s b e) b = true) := by
  induction tr generalizing st b with
  | nil => exact h
  | cons e t ih => exact ih _ _ (step_room_inv e st b c s h)

/-! ### Claim theorems -/

/-- C1: an `upload_photo` whose session identifier is registered in
`active_sessions` (hence non-empty), whose photo data is non-empty and
which passes validation is forwarded with the payload fields
`{photo, mime_type, file_size}` unmodified as a `photo_received` event
to the desktop room of the session, followed by `upload_success` to the
uploading connection (transport forward assumed not to raise). -/
theorem C1_valid_upload_forwarded_unmodified (st : ServerState) (sender d : ConnId)
    (s p m : String) (n : Int) (hs : s ≠ "") (hreg : lookup st s = some d)
    (hp : p ≠ "") (hv : validate m n = .ok) :
    handle_upload st sender ⟨some s, some p, some m, some n⟩ true
      = (st, [.toRoom (desktopRoom s) "photo_received" p m n,
              .toConn sender "upload_success" msgPhotoSent]) := by
  have hcond : ¬ (s = "" ∨ lookup st s = none) := by
    rintro (h | h)
    · exact hs h
    · rw [hreg] at h
      exact Option.noConfusion h
  unfold handle_upload
  simp only [Option.getD_some]
  rw [if_neg hcond, if_neg hp, hv]
  simp

/-- Witness for C1: scenario A of the specification on a concrete state. -/
theorem C1_witness :
    handle_upload ⟨[("s1", "d1")], [("desktop_s1", "d1")]⟩ "m1"
        ⟨some "s1", some "QmFzZTY0", some "image/png", some 2048⟩ true
      = (⟨[("s1", "d1")], [("desktop_s1", "d1")]⟩,
         [.toRoom (desktopRoom "s1") "photo_received" "QmFzZTY0" "image/png" 2048,
          .toConn "m1" "upload_success" msgPhotoSent]) :=
  C1_valid_upload_forwarded_unmodified ⟨[("s1", "d1")], [("desktop_s1", "d1")]⟩
    "m1" "d1" "s1" "QmFzZTY0" "image/png" 2048
    (by decide) (by decide) (by decide) (by decide)

/-- C2: validation accepts a MIME type and declared size exactly when the
MIME type is in the allowed set and the size is at most 10 MiB; a MIME
type outside the set is rejected with the invalid-file-type reason and an
oversize declaration with the file-too-large reason; the upload handler
(of which validation is a part) never changes the server state. -/
theorem C2_validate_accepts_iff (m : String) (n : Int) :
    (validate m n = .ok ↔ m ∈ allowed_types ∧ n ≤ max_size)
    ∧ (m ∉ allowed_types → validate m n = .rejected (msgInvalidFileType m))
    ∧ (m ∈ allowed_types → max_size < n → validate m n = .rejected msgFileTooLarge)
    ∧ (∀ st sender data fOk, (handle_upload st sender data fOk).1 = st) := by
  refine ⟨?_, ?_, ?_, handle_upload_fst⟩
  · unfold validate
    by_cases hm : m ∈ allowed_types
    · rw [if_neg (not_not_intro hm)]
      by_cases hn : n > max_size
      · rw [if_pos hn]
        constructor
        · intro h
          exact ValidationResult.noConfusion h
        · rintro ⟨-, h2⟩
          exact absurd h2 (not_le.mpr hn)
      · rw [if_neg hn]
        constructor
        · intro _
          exact ⟨hm, le_of_not_lt hn⟩
        · intro _
          rfl
    · rw [if_pos hm]
      constructor
      · intro h
        exact ValidationResult.noConfusion h
      · rintro ⟨h1, -⟩
        exact absurd h1 hm
  · intro hm
    unfold validate
    rw [if_pos hm]
  · intro hm hn
    unfold validate
    rw [if_neg (not_not_intro hm), if_pos hn]

/-- Witness for C2: the accept case, the bad-MIME case (scenario B) and
the oversize case (scenario C, 11 MiB) at concrete inputs. -/
theorem C2_witness :
    validate "image/png" 2048 = .ok
    ∧ validate "image/gif" 2048 = .rejected (msgInvalidFileType "image/gif")
    ∧ validate "image/png" 11534336 = .rejected msgFileTooLarge :=
  ⟨(C2_validate_accepts_iff "image/png" 2048).1.mpr (by decide),
   (C2_validate_accepts_iff "image/gif" 2048).2.1 (by decide),
   (C2_validate_accepts_iff "image/png" 11534336).2.2.1 (by decide) (by decide)⟩

/-- C5: an `upload_photo` whose session identifier is empty, missing or
not present in the session registry emits no `photo_received` (no room
broadcast at all) to any connection. -/
theorem C5_unregistered_never_forwards (st : ServerState) (sender : ConnId)
    (data : UploadData) (fOk : Bool)
    (h : ∀ s, data.session_id = some s → s = "" ∨ lookup st s = none) :
    ∀ room ev p mt fs, Emit.toRoom room ev p mt fs ∉ (handle_upload st sender data fOk).2 := by
  intro room ev p mt fs
  unfold handle_upload
  split
  · simp
  · rename_i s hsid
    rw [if_pos (h s hsid)]
    simp

/-- Witness for C5: an upload for the unregistered session `s1` on the
initial state broadcasts nothing. -/
theorem C5_witness :
    Emit.toRoom "desktop_s1" "photo_received" "p" "image/png" 100
      ∉ (handle_upload initialState "m1" ⟨some "s1", some "p", some "image/png", some 100⟩ true).2 :=
  C5_unregistered_never_forwards initialState "m1"
    ⟨some "s1", some "p", some "image/png", some 100⟩ true
    (fun s hs => by cases hs; exact Or.inr rfl)
    "desktop_s1" "photo_received" "p" "image/png" 100

/-- C8: a payload that omits `mime_type` gets the default `image/jpeg`
(which is in the allowed set) and one that omits `file_size` gets the
default `0` (within the limit), so an upload with a registered session
and non-empty photo but no declared MIME type or size is forwarded. -/
theorem C8_missing_fields_get_defaults (st : ServerState) (sender d : ConnId)
    (s p : String) (hs : s ≠ "") (hreg : lookup st s = some d) (hp : p ≠ "") :
    "image/jpeg" ∈ allowed_types ∧ (0 : Int) ≤ max_size
    ∧ handle_upload st sender ⟨some s, some p, none, none⟩ true
      = (st, [.toRoom (desktopRoom s) "photo_received" p "image/jpeg" 0,
              .toConn sender "upload_success" msgPhotoSent]) := by
  have hcond : ¬ (s = "" ∨ lookup st s = none) := by
    rintro (h | h)
    · exact hs h
    · rw [hreg] at h
      exact Option.noConfusion h
  refine ⟨by decide, by decide, ?_⟩
  unfold handle_upload
  simp only [Option.getD_none]
  rw [if_neg hcond, if_neg hp, show validate "image/jpeg" 0 = .ok from rfl]
  simp

/-- Witness for C8: concrete upload with no `mime_type`/`file_size`. -/
theorem C8_witness :
    "image/jpeg" ∈ allowed_types ∧ (0 : Int) ≤ max_size
    ∧ handle_upload ⟨[("s1", "d1")], [("desktop_s1", "d1")]⟩ "m1"
        ⟨some "s1", some "pict", none, none⟩ true
      = (⟨[("s1", "d1")], [("desktop_s1", "d1")]⟩,
         [.toRoom (desktopRoom "s1") "photo_received" "pict" "image/jpeg" 0,
          .toConn "m1" "upload_success" msgPhotoSent]) :=
  C8_missing_fields_get_defaults ⟨[("s1", "d1")], [("desktop_s1", "d1")]⟩
    "m1" "d1" "s1" "pict" (by decide) (by decide) (by decide)

/-- C9: no event other than `register_desktop` and `disconnect` changes
the session registry; in particular every `upload_photo`, whatever its
outcome, leaves `active_sessions` exactly as it was. -/
theorem C9_upload_preserves_registry (st : ServerState) (e : Event)
    (h : touchesRegistry e = false) :
    (step st e).1.active_sessions = st.active_sessions := by
  cases e with
  | connect c => rfl
  | disconnect c => exact absurd h (by simp [touchesRegistry])
  | register_desktop c sid => exact absurd h (by simp [touchesRegistry])
  | register_mobile c sid => exact handle_register_mobile_sessions st c sid
  | upload_photo c d fOk =>
      exact congrArg ServerState.active_sessions (handle_upload_fst st c d fOk)

/-- Witness for C9: a concrete upload leaves the registry unchanged. -/
theorem C9_witness :
    (step ⟨[("s1", "d1")], [("desktop_s1", "d1")]⟩
        (.upload_photo "m1" ⟨some "s1", some "p", none, none⟩ true)).1.active_sessions
      = (⟨[("s1", "d1")], [("desktop_s1", "d1")]⟩ : ServerState).active_sessions :=
  C9_upload_preserves_registry ⟨[("s1", "d1")], [("desktop_s1", "d1")]⟩
    (.upload_photo "m1" ⟨some "s1", some "p", none, none⟩ true) rfl

/-- C3 counterexample: the claim quantifies over every session
identifier, but registering the empty identifier is refused by the
handler (`if session_id:` is false for `""`), so `lookup` afterwards
yields `none`, not the registering connection, and the registry is left
untouched. -/
theorem C3_counterexample :
    lookup (handle_register_desktop initialState "c1" (some "")).1 "" ≠ some "c1"
    ∧ (handle_register_desktop initialState "c1" (some "")).1 = initialState := by
  decide

/-- C3 amended: for every NON-EMPTY session identifier `s`,
`register_desktop(s)` by `c` followed by `lookup(s)` returns `c`; a
later `register_desktop(s)` by `c2` makes `lookup(s)` return `c2` (last
registration wins); and registering twice from the same connection
leaves the server state identical to registering once. -/
theorem C3_register_lookup_last_wins_idem (st : ServerState) (c c2 : ConnId)
    (s : SessionId) (hs : ¬ s = "") :
    lookup (handle_register_desktop st c (some s)).1 s = some c
    ∧ lookup (handle_register_desktop
        (handle_register_desktop st c (some s)).1 c2 (some s)).1 s = some c2
    ∧ (handle_register_desktop
        (handle_register_desktop st c (some s)).1 c (some s)).1
      = (handle_register_desktop st c (some s)).1 := by
  refine ⟨?_, ?_, ?_⟩
  · rw [handle_register_desktop_some_fst st c s hs]
    exact lookupList_dictInsert_self st.active_sessions s c
  · rw [handle_register_desktop_some_fst st c s hs,
      handle_register_desktop_some_fst _ c2 s hs]
    exact lookupList_dictInsert_self _ s c2
  · rw [handle_register_desktop_some_fst st c s hs,
      handle_register_desktop_some_fst _ c s hs]
    show ServerState.mk (dictInsert (dictInsert st.active_sessions s c) s c)
        (joinRoom (joinRoom st.rooms (desktopRoom s) c) (desktopRoom s) c)
      = ServerState.mk (dictInsert st.active_sessions s c)
        (joinRoom st.rooms (desktopRoom s) c)
    rw [dictInsert_idem, joinRoom_idem]

/-- Witness for C3 amended: concrete registrations for session `s1`. -/
theorem C3_witness :
    lookup (handle_register_desktop initialState "c1" (some "s1")).1 "s1" = some "c1"
    ∧ lookup (handle_register_desktop
        (handle_register_desktop initialState "c1" (some "s1")).1 "c2" (some "s1")).1 "s1"
      = some "c2"
    ∧ (handle_register_desktop
        (handle_register_desktop initialState "c1" (some "s1")).1 "c1" (some "s1")).1
      = (handle_register_desktop initialState "c1" (some "s1")).1 :=
  C3_register_lookup_last_wins_idem initialState "c1" "c2" "s1" (by decide)

/-- C4: after the disconnect of connection `c` every registry entry
with value `c` is gone (on states with at most one entry per key, which
all reachable states are), lookup of such a session returns `none`, and
a subsequent `upload_photo` naming that session gets exactly
`upload_error` with the desktop-not-connected message and no forward. -/
theorem C4_disconnect_unregisters (st : ServerState) (c sender : ConnId)
    (s : SessionId) (data : UploadData) (fOk : Bool) (hnd : nodupKeys st)
    (hreg : lookup st s = some c) (hdata : data.session_id = some s) :
    (∀ t, lookup st t = some c → lookup (step st (.disconnect c)).1 t = none)
    ∧ lookup (step st (.disconnect c)).1 s = none
    ∧ (step (step st (.disconnect c)).1 (.upload_photo sender data fOk)).2
      = [.toConn sender "upload_error" msgDesktopNotConnected] := by
  have hall : ∀ t, lookup st t = some c → lookup (step st (.disconnect c)).1 t = none := by
    intro t ht
    exact lookupList_removeByValue_eq_none st.active_sessions c t hnd ht
  have hlook : lookup (step st (.disconnect c)).1 s = none := hall s hreg
  refine ⟨hall, hlook, ?_⟩
  show (handle_upload (step st (.disconnect c)).1 sender data fOk).2
    = [.toConn sender "upload_error" msgDesktopNotConnected]
  unfold handle_upload
  split
  · rename_i hnone
    rw [hdata] at hnone
  · rename_i t ht
    rw [hdata] at ht
    have hts : t = s := (Option.some.inj ht).symm
    subst hts
    rw [if_pos (Or.inr hlook)]

/-- Witness for C4: desktop `d1` registered for `s1` disconnects; the
following upload for `s1` is rejected with the desktop-not-connected
error. -/
theorem C4_witness :
    (∀ t, lookup ⟨[("s1", "d1")], [("desktop_s1", "d1")]⟩ t = some "d1"
      → lookup (step ⟨[("s1", "d1")], [("desktop_s1", "d1")]⟩ (.disconnect "d1")).1 t = none)
    ∧ lookup (step ⟨[("s1", "d1")], [("desktop_s1", "d1")]⟩ (.disconnect "d1")).1 "s1" = none
    ∧ (step (step ⟨[("s1", "d1")], [("desktop_s1", "d1")]⟩ (.disconnect "d1")).1
        (.upload_photo "m1" ⟨some "s1", some "p", some "image/png", some 100⟩ true)).2
      = [.toConn "m1" "upload_error" msgDesktopNotConnected] :=
  C4_disconnect_unregisters ⟨[("s1", "d1")], [("desktop_s1", "d1")]⟩ "d1" "m1" "s1"
    ⟨some "s1", some "p", some "image/png", some 100⟩ true
    (by unfold nodupKeys; decide) (by decide) rfl

/-- C6 counterexample: desktop `c1` registers `s1`, then desktop `c2`
registers `s1` while `c1` is still connected.  The registry maps `s1`
to `c2` only, but the room `desktop_s1` still contains `c1` as well;
the next validated upload emits `photo_received` to that room, whose
member list has two desktop connections, so the claim of at-most-one
delivery and of the room holding only the current desktop fails. -/
theorem C6_counterexample :
    lookup (run [.register_desktop "c1" (some "s1"),
        .register_desktop "c2" (some "s1")]) "s1" = some "c2"
    ∧ ("desktop_s1", "c1") ∈ (run [.register_desktop "c1" (some "s1"),
        .register_desktop "c2" (some "s1")]).rooms
    ∧ ("desktop_s1", "c2") ∈ (run [.register_desktop "c1" (some "s1"),
        .register_desktop "c2" (some "s1")]).rooms
    ∧ roomMembers (run [.register_desktop "c1" (some "s1"),
        .register_desktop "c2" (some "s1")]) "desktop_s1" = ["c2", "c1"]
    ∧ (step (run [.register_desktop "c1" (some "s1"),
          .register_desktop "c2" (some "s1")])
        (.upload_photo "m1" ⟨some "s1", some "p", some "image/png", some 100⟩ true)).2
      = [.toRoom "desktop_s1" "photo_received" "p" "image/png" 100,
         .toConn "m1" "upload_success" msgPhotoSent] := by
  decide

/-- C6 amended: at every reachable state the registry holds at most one
binding per session identifier, but the desktop room of a session
contains EVERY connection that registered as desktop for it and has not
disconnected since — not only the currently registered one — so a
forwarded `photo_received` can reach several desktop connections after
a re-registration while the first desktop is still connected. -/
theorem C6_room_holds_all_live_registrants (tr : List Event) (c : ConnId)
    (s : SessionId) :
    nodupKeys (run tr)
    ∧ ((desktopRoom s, c) ∈ (run tr).rooms ↔ desktopLive tr c s = true) :=
  ⟨run_nodupKeys tr,
   run_room_inv_aux tr initialState false c s (by simp [initialState])⟩

/-- Witness for C6 amended: after one registration the registrant is in
the desktop room. -/
theorem C6_witness :
    (desktopRoom "s1", "c1") ∈ (run [.register_desktop "c1" (some "s1")]).rooms :=
  (C6_room_holds_all_live_registrants [.register_desktop "c1" (some "s1")]
    "c1" "s1").2.mpr (by decide)

/-- C7 counterexample: connection `c1`, already registered as desktop
for `s1`, later sends `register_desktop` for `s2` and `register_mobile`
for `s3`; both are processed and change its registry bindings and room
memberships, so registration is not one-shot. -/
theorem C7_counterexample :
    lookup (run [.register_desktop "c1" (some "s1")]) "s2" = none
    ∧ lookup (run [.register_desktop "c1" (some "s1"),
        .register_desktop "c1" (some "s2")]) "s2" = some "c1"
    ∧ ("desktop_s2", "c1") ∉ (run [.register_desktop "c1" (some "s1")]).rooms
    ∧ ("desktop_s2", "c1") ∈ (run [.register_desktop "c1" (some "s1"),
        .register_desktop "c1" (some "s2")]).rooms
    ∧ ("mobile_s3", "c1") ∈ (run [.register_desktop "c1" (some "s1"),
        .register_mobile "c1" (some "s3")]).rooms := by
  decide

/-- C7 amended: the relay keeps no per-connection role and registration
is not one-shot: whatever the connection's prior registrations, a
`register_desktop` with a non-empty identifier rebinds that identifier
to the sender and joins the desktop room, and a `register_mobile` with
a non-empty identifier joins the mobile room. -/
theorem C7_registration_not_one_shot (st : ServerState) (c : ConnId)
    (s : SessionId) (hs : ¬ s = "") :
    lookup (handle_register_desktop st c (some s)).1 s = some c
    ∧ (desktopRoom s, c) ∈ (handle_register_desktop st c (some s)).1.rooms
    ∧ (mobileRoom s, c) ∈ (handle_register_mobile st c (some s)).1.rooms := by
  refine ⟨?_, ?_, ?_⟩
  · rw [handle_register_desktop_some_fst st c s hs]
    exact lookupList_dictInsert_self st.active_sessions s c
  · rw [handle_register_desktop_some_fst st c s hs]
    exact (mem_joinRoom _).mpr (Or.inr rfl)
  · rw [handle_register_mobile_some_fst st c s hs]
    exact (mem_joinRoom _).mpr (Or.inr rfl)

/-- Witness for C7 amended: a connection already registered for `s1`
still gets its `register_desktop` for `s2` and `register_mobile` for
`s2` processed. -/
theorem C7_witness :
    lookup (handle_register_desktop ⟨[("s1", "c1")], [("desktop_s1", "c1")]⟩
        "c1" (some "s2")).1 "s2" = some "c1"
    ∧ (desktopRoom "s2", "c1") ∈ (handle_register_desktop
        ⟨[("s1", "c1")], [("desktop_s1", "c1")]⟩ "c1" (some "s2")).1.rooms
    ∧ (mobileRoom "s2", "c1") ∈ (handle_register_mobile
        ⟨[("s1", "c1")], [("desktop_s1", "c1")]⟩ "c1" (some "s2")).1.rooms :=
  C7_registration_not_one_shot ⟨[("s1", "c1")], [("desktop_s1", "c1")]⟩
    "c1" "s2" (by decide)

/-- C10: every `upload_photo` emits exactly one acknowledgment
(`upload_success` or `upload_error`) to the uploading connection,
whichever validation branch is taken and whether or not the transport
forward raises. -/
theorem C10_exactly_one_response (st : ServerState) (sender : ConnId)
    (data : UploadData) (fOk : Bool) :
    (handle_upload st sender data fOk).2.countP (isUploadResponseTo sender) = 1 := by
  unfold handle_upload
  split
  · simp [List.countP_cons, isUploadResponseTo_error]
  · split
    · simp [List.countP_cons, isUploadResponseTo_error]
    · split
      · simp [List.countP_cons, isUploadResponseTo_error]
      · split
        · simp [List.countP_cons, isUploadResponseTo_error]
        · split
          · rename_i reason hval
            simp [List.countP_cons, isUploadResponseTo_error]
          · split
            · simp [List.countP_cons, isUploadResponseTo_toRoom,
                isUploadResponseTo_success]
            · simp [List.countP_cons, isUploadResponseTo_error]

end WebImg
